import Mathlib

/-!
Shallow embedding of `src/app.js`, a browser sentiment-analysis demo:
it loads reviews from a TSV file, picks one at random, classifies it with a
local transformers.js pipeline, renders the result and logs it to a
spreadsheet endpoint.  JavaScript strings are Lean `String`s, JS numbers on
the classification path are rationals, and the DOM plus the promise chain of
`analyzeRandomReview` are modelled as an explicit application-state record
threaded through a pure transition function.
-/

/-- Embedding of JavaScript `String.prototype.trim` (strip whitespace from
both ends), used by `saveApiToken` and the loader filter in `app.js`. -/
def jsTrim (s : String) : String :=
  ⟨((s.data.dropWhile Char.isWhitespace).reverse.dropWhile Char.isWhitespace).reverse⟩

/-- Embedding of JavaScript `String.prototype.toUpperCase` on the ASCII
labels that occur in `app.js`. -/
def jsToUpper (s : String) : String :=
  ⟨s.data.map Char.toUpper⟩

/-- Embedding of JavaScript `x.toFixed(1)` on a rational `x`: the integer `n`
such that `n / 10` is as close to `x` as possible, the larger `n` on a tie
(ECMAScript Number.prototype.toFixed with f = 1).  The rendered string is
`n / 10` written with one decimal digit; we keep the integer of tenths. -/
def jsToFixed1 (x : ℚ) : ℤ :=
  ⌊x * 10 + 1 / 2⌋

/-- Rounding of `x` to one decimal place as the spec words it
("round(s*100, 1 decimal)"): half away from zero, returned as tenths. -/
def specRound1 (x : ℚ) : ℤ :=
  if 0 ≤ x then ⌊x * 10 + 1 / 2⌋ else -⌊-x * 10 + 1 / 2⌋

/-- One element of the classifier output array, as `displaySentiment` and
`logToGoogleSheets` in `app.js` see it: either a non-null object whose
`label` field is a string or absent (`undefined`) and whose `score` field is
a number or absent, or some defined non-object value (a number, `null`, ...),
on which property access followed by a method call throws. -/
inductive SentimentData where
  | obj (label : Option String) (score : Option ℚ)
  | nonObj
deriving DecidableEq, Repr

/-- What `sentimentResult.innerHTML` shows after `displaySentiment`:
the CSS bucket class, the label text, and the confidence percentage as an
integer of tenths (the string `(score * 100).toFixed(1)`). -/
structure Rendered where
  bucket : String
  label : String
  pctTenths : ℤ
deriving DecidableEq, Repr

/-- Embedding of `displaySentiment` in `app.js` (lines 167-208): extract
`result[0][0]`, take its label uppercased when it is a string (default
`"NEUTRAL"`), its score when it is a number (default `0.5`), bucket
positive/negative when the uppercased label matches and the score exceeds
`0.5`, else neutral, and render `label (pct% confidence)`. -/
def displaySentiment (result : List (List SentimentData)) : Rendered :=
  match result with
  | (SentimentData.obj olab osc :: _) :: _ =>
      let label := match olab with
        | some s => jsToUpper s
        | none => "NEUTRAL"
      let score := match osc with
        | some q => q
        | none => 1 / 2
      let sentiment :=
        if label = "POSITIVE" ∧ score > 1 / 2 then "positive"
        else if label = "NEGATIVE" ∧ score > 1 / 2 then "negative"
        else "neutral"
      ⟨sentiment, label, jsToFixed1 (score * 100)⟩
  | _ => ⟨"neutral", "NEUTRAL", jsToFixed1 (1 / 2 * 100)⟩

/-- The raw value produced by `await sentimentPipeline(text)` in
`analyzeSentiment`: an array of results, a non-array value, or a thrown
error carrying a message. -/
inductive PipeOut where
  | arr (xs : List SentimentData)
  | nonArr
  | threw (msg : String)
deriving DecidableEq, Repr

/-- Embedding of `analyzeSentiment` in `app.js` (lines 152-164): reject a
missing pipeline, propagate a thrown error, reject a non-array or empty
output, and otherwise wrap the output as `[output]`. -/
def analyzeSentiment (ready : Bool) (out : PipeOut) :
    Except String (List (List SentimentData)) :=
  if ¬ready then .error "Sentiment model is not initialized."
  else
    match out with
    | .threw m => .error m
    | .nonArr => .error "Invalid sentiment output from local model."
    | .arr xs =>
        if xs.length = 0 then .error "Invalid sentiment output from local model."
        else .ok [xs]

/-- The data a successful `logToGoogleSheets` call posts, restricted to the
fields the spec constrains: the review text and the formatted sentiment
`label (pct%)`, where the percentage is `none` when `score * 100` is `NaN`
(a missing score). -/
structure LogEntry where
  review : String
  label : String
  pctTenths : Option ℤ
deriving DecidableEq, Repr

/-- Embedding of `logToGoogleSheets` in `app.js` (lines 211-259): inside a
try/catch, read `result[0][0]`, call `.label.toUpperCase()` (throws unless
the label is a string), format `(score * 100).toFixed(1)` (the string `NaN`
when the score is absent), and POST; any throw, including a network failure,
is caught and swallowed, returning `none`. -/
def logToGoogleSheets (review : String) (result : List (List SentimentData))
    (netThrows : Bool) : Option LogEntry :=
  match result with
  | (SentimentData.obj (some lab) osc :: _) :: _ =>
      if netThrows then none
      else
        some ⟨review, jsToUpper lab,
          match osc with
          | some q => some (jsToFixed1 (q * 100))
          | none => none⟩
  | _ => none

/-- The mutable application state of `app.js`: the globals `reviews`,
`sentimentPipeline` (as a readiness flag), `apiToken`, and the DOM pieces the
flow writes (`reviewText`, `sentimentResult` as an optional rendered result,
the error element, the loading element, the analyze button's disabled flag). -/
structure AppState where
  reviews : List String
  pipelineReady : Bool
  apiToken : String
  reviewText : String
  displayed : Option Rendered
  errorMsg : Option String
  loadingVisible : Bool
  btnDisabled : Bool
deriving DecidableEq, Repr

/-- Embedding of `analyzeRandomReview` in `app.js` (lines 106-149) together
with its promise chain: hide the error; bail out with a visible error when
the review list is empty or the pipeline is not ready; otherwise pick
`reviews[Math.floor(r * reviews.length)]` for the random draw `r`, show it,
enter the loading state and clear the result display; then either render the
classification result and attempt the log call, or show the error message
(with the `"Failed to analyze sentiment."` fallback when it is empty); in
both cases finally hide the loading indicator and re-enable the button.
Returns the final state and the log entry actually sent, if any. -/
def analyzeRandomReview (st : AppState) (r : ℚ) (out : PipeOut)
    (netThrows : Bool) : AppState × Option LogEntry :=
  let st0 := { st with errorMsg := none }
  if st0.reviews.length = 0 then
    ({ st0 with errorMsg := some "No reviews available. Please try again later." }, none)
  else if ¬st0.pipelineReady then
    ({ st0 with errorMsg := some "Sentiment model is not ready yet. Please wait a moment." }, none)
  else
    let idx := (⌊r * st0.reviews.length⌋).toNat
    let selected := st0.reviews.getD idx ""
    let st1 := { st0 with
      reviewText := selected
      loadingVisible := true
      btnDisabled := true
      displayed := none }
    match analyzeSentiment st1.pipelineReady out with
    | .error msg =>
        ({ st1 with
            errorMsg := some (if msg = "" then "Failed to analyze sentiment." else msg)
            loadingVisible := false
            btnDisabled := false }, none)
    | .ok result =>
        let st2 := { st1 with displayed := some (displaySentiment result) }
        let entry := logToGoogleSheets selected result netThrows
        ({ st2 with loadingVisible := false, btnDisabled := false }, entry)

/-- The `text` cell of one parsed TSV row as `loadReviews` sees it after
`row => row.text`: a string, a defined non-string value, or absent. -/
inductive RowText where
  | strText (s : String)
  | nonString
  | missing
deriving DecidableEq, Repr

/-- Embedding of the parse-completion handler of `loadReviews` in `app.js`
(lines 77-82): map each row to its `text` cell and keep the cells that are
strings and non-empty after trimming. -/
def loadReviews (rows : List RowText) : List String :=
  rows.filterMap fun r =>
    match r with
    | .strText s => if jsTrim s ≠ "" then some s else none
    | _ => none

/-- The minimum length threshold of the loader: a kept review must be
strictly longer than this after trimming (the code keeps exactly the rows
whose trimmed text is non-empty). -/
def minReviewLength : ℕ := 0

/-- A row is valid for the loader: its `text` cell is present, is a string,
and its trimmed length strictly exceeds `minReviewLength`. -/
def rowIsValid (r : RowText) : Bool :=
  match r with
  | .strText s => (jsTrim s).length > minReviewLength
  | _ => false

/-- The `text` cell of a row, when it is a string. -/
def rowString (r : RowText) : Option String :=
  match r with
  | .strText s => some s
  | _ => none

/-- Embedding of `saveApiToken` in `app.js` (lines 96-103): trim the input
field; store the result under the fixed key when it is non-empty, otherwise
remove the key.  The returned value is the content of the
`localStorage` slot for `"hfApiToken"`. -/
def saveApiToken (input : String) : Option String :=
  let t := jsTrim input
  if t ≠ "" then some t else none

/-- Embedding of the token restore in the `DOMContentLoaded` handler of
`app.js` (lines 29-33): read the fixed key and adopt the stored value when
it is truthy, otherwise leave the token empty. -/
def loadSavedToken (store : Option String) : String :=
  match store with
  | some s => if s ≠ "" then s else ""
  | none => ""

/-- A concrete application state used to evaluate the flow at specific
inputs: one loaded review, pipeline ready, everything else idle. -/
def demoState : AppState :=
  { reviews := ["solid product"]
    pipelineReady := true
    apiToken := ""
    reviewText := ""
    displayed := none
    errorMsg := none
    loadingVisible := false
    btnDisabled := false }

/-- Modelled from the spec: the hosted inference endpoint of the remote-API
classifier variant.  That variant is absent from `src/app.js` (the file is
the local-pipeline version; only the bearer-token plumbing remains), so it
is modelled from spec sections 4.3 and 6. -/
def hostedInferenceEndpoint : String := "hosted-inference-endpoint"

/-- Modelled from the spec: the HTTP request the remote-API variant sends —
an endpoint URL, an authorization header, and a JSON body. -/
structure RemoteRequest where
  url : String
  authHeader : String
  body : String
deriving DecidableEq, Repr

/-- Modelled from the spec: the remote-API variant's request construction —
it POSTs the review text as the JSON body `\x7b inputs: <text> \x7d` to the
hosted endpoint with the stored token as a bearer credential. -/
def remoteClassifyRequest (token text : String) : RemoteRequest :=
  ⟨hostedInferenceEndpoint, "Bearer " ++ token,
    "\x7b \"inputs\": \"" ++ text ++ "\" \x7d"⟩

/-- The normalized Sentiment Result shape of the spec's data model: a label
and a confidence score. -/
structure SentimentResult where
  label : String
  score : ℚ
deriving DecidableEq, Repr

/-- Modelled from the spec: the response of the hosted endpoint as the
remote-API variant inspects it — either a JSON list whose elements may or
may not be label/score objects, or a value of some other shape. -/
inductive RemoteResp where
  | jsonList (xs : List SentimentData)
  | otherShape
deriving DecidableEq, Repr

/-- Modelled from the spec: the remote-API variant's response handling — it
expects a response shaped as a non-empty list whose first element carries a
label and a score, and treats any other shape as an error. -/
def extractRemoteResult (resp : RemoteResp) : Except String SentimentResult :=
  match resp with
  | .jsonList (SentimentData.obj (some lab) (some sc) :: _) => .ok ⟨lab, sc⟩
  | _ => .error "Invalid response from sentiment analysis API."

/-! ### Helper lemmas -/

/-- A trimmed text is strictly longer than the threshold iff it is non-empty:
the loader's filter condition restated through `minReviewLength`. -/
theorem rowIsValid_strText_iff (s : String) :
    rowIsValid (RowText.strText s) = true ↔ jsTrim s ≠ "" := by
  cases h : jsTrim s with
  | mk l =>
    simp only [rowIsValid, minReviewLength, h, gt_iff_lt, decide_eq_true_eq]
    constructor
    · intro hlen
      intro he
      rw [he] at hlen
      simp [String.length] at hlen
    · intro hne
      cases l with
      | nil => exact absurd rfl hne
      | cons c cs => simp [String.length]

/-- The floor of `r * n` is a valid index into a list of length `n` when
`0 ≤ r < 1` and `n > 0` (the `Math.floor(Math.random() * length)` pattern). -/
theorem floor_mul_length_lt (n : ℕ) (r : ℚ) (_h0 : 0 ≤ r) (h1 : r < 1)
    (hn : 0 < n) : (⌊r * (n : ℚ)⌋).toNat < n := by
  have hlt : r * (n : ℚ) < (n : ℚ) := by
    have hnpos : (0 : ℚ) < (n : ℚ) := by exact_mod_cast hn
    calc r * (n : ℚ) < 1 * (n : ℚ) := by
          exact mul_lt_mul_of_pos_right h1 hnpos
      _ = (n : ℚ) := one_mul _
  have hfl : ⌊r * (n : ℚ)⌋ < (n : ℤ) := by
    rw [Int.floor_lt]
    exact_mod_cast hlt
  exact (Int.toNat_lt' (Nat.pos_iff_ne_zero.mp hn)).mpr hfl

/-! ### Claim theorems -/

/-- C2: the loader keeps exactly the valid rows: its output is the `text`
cells of the rows whose cell is a present string of trimmed length strictly
greater than `minReviewLength`, so a dataset with `N` valid and `M` invalid
rows yields exactly `N` review strings. -/
theorem loadReviews_keeps_exactly_valid_rows (rows : List RowText) :
    loadReviews rows = (rows.filter rowIsValid).filterMap rowString ∧
    (loadReviews rows).length = (rows.filter rowIsValid).length := by
  induction rows with
  | nil => exact ⟨rfl, rfl⟩
  | cons r rows ih =>
    obtain ⟨ih1, ih2⟩ := ih
    cases r with
    | strText s =>
      by_cases h : jsTrim s = ""
      · have hv : rowIsValid (RowText.strText s) = false := by
          cases hb : rowIsValid (RowText.strText s) with
          | false => rfl
          | true => exact absurd ((rowIsValid_strText_iff s).mp hb) (by simp [h])
        simp [loadReviews, List.filterMap_cons, List.filter_cons, h, hv] at ih1 ih2 ⊢
        exact ⟨ih1, ih2⟩
      · have hv : rowIsValid (RowText.strText s) = true :=
          (rowIsValid_strText_iff s).mpr h
        simp [loadReviews, List.filterMap_cons, List.filter_cons, h, hv, rowString] at ih1 ih2 ⊢
        exact ⟨ih1, ih2⟩
    | nonString =>
      simp [loadReviews, List.filterMap_cons, List.filter_cons, rowIsValid] at ih1 ih2 ⊢
      exact ⟨ih1, ih2⟩
    | missing =>
      simp [loadReviews, List.filterMap_cons, List.filter_cons, rowIsValid] at ih1 ih2 ⊢
      exact ⟨ih1, ih2⟩

/-- C6 (counterexample): saving the credential `" secret "` and reloading it
does not give back the entered string — `saveApiToken` trims it to
`"secret"` before storing. -/
theorem token_roundtrip_fails_on_padded_input :
    loadSavedToken (saveApiToken " secret ") ≠ " secret " := by decide

/-- C6 (amended): saving a credential string and reloading it yields the
trimmed credential; in particular a credential with no surrounding
whitespace round-trips exactly, and a whitespace-only credential is stored
as an absent key and reads back as the empty token. -/
theorem token_roundtrip_yields_trimmed (input : String) :
    loadSavedToken (saveApiToken input) = jsTrim input := by
  unfold loadSavedToken saveApiToken
  by_cases h : jsTrim input = "" <;> simp [h]

/-- C1: for a classification result with score `s ≥ 0` and a label from the
Sentiment Result data model that reaches the renderer, the rendered
confidence is `round(s*100, 1 decimal)` (as tenths), and the bucket is
positive iff the label is `POSITIVE` with `s > 0.5`, negative iff the label
is `NEGATIVE` with `s > 0.5`, and neutral otherwise — in particular any
`s ≤ 0.5` is bucketed neutral regardless of label. -/
theorem displaySentiment_pct_and_bucket (L : String) (s : ℚ)
    (hL : L = "POSITIVE" ∨ L = "NEGATIVE" ∨ L = "NEUTRAL") (hs : 0 ≤ s) :
    (displaySentiment [[SentimentData.obj (some L) (some s)]]).pctTenths = specRound1 (s * 100) ∧
    ((displaySentiment [[SentimentData.obj (some L) (some s)]]).bucket = "positive" ↔
      (L = "POSITIVE" ∧ 1 / 2 < s)) ∧
    ((displaySentiment [[SentimentData.obj (some L) (some s)]]).bucket = "negative" ↔
      (L = "NEGATIVE" ∧ 1 / 2 < s)) ∧
    ((displaySentiment [[SentimentData.obj (some L) (some s)]]).bucket = "neutral" ↔
      (¬(L = "POSITIVE" ∧ 1 / 2 < s) ∧ ¬(L = "NEGATIVE" ∧ 1 / 2 < s))) := by
  have hP : jsToUpper "POSITIVE" = "POSITIVE" := by decide
  have hN : jsToUpper "NEGATIVE" = "NEGATIVE" := by decide
  have hU : jsToUpper "NEUTRAL" = "NEUTRAL" := by decide
  rcases hL with rfl | rfl | rfl <;>
    by_cases hc : (2⁻¹ : ℚ) < s <;>
      simp [displaySentiment, hP, hN, hU, hc, specRound1, hs, jsToFixed1, one_div]

/-- C1 (witness): the renderer theorem instantiated at label `"POSITIVE"`
and score `1`. -/
theorem displaySentiment_pct_and_bucket_witness :
    (("POSITIVE" = "POSITIVE" ∨ "POSITIVE" = "NEGATIVE" ∨ "POSITIVE" = "NEUTRAL") ∧
      (0 : ℚ) ≤ 1) ∧
    ((displaySentiment [[SentimentData.obj (some "POSITIVE") (some 1)]]).pctTenths =
        specRound1 ((1 : ℚ) * 100) ∧
      ((displaySentiment [[SentimentData.obj (some "POSITIVE") (some 1)]]).bucket = "positive" ↔
        ("POSITIVE" = "POSITIVE" ∧ (1 : ℚ) / 2 < 1)) ∧
      ((displaySentiment [[SentimentData.obj (some "POSITIVE") (some 1)]]).bucket = "negative" ↔
        ("POSITIVE" = "NEGATIVE" ∧ (1 : ℚ) / 2 < 1)) ∧
      ((displaySentiment [[SentimentData.obj (some "POSITIVE") (some 1)]]).bucket = "neutral" ↔
        (¬("POSITIVE" = "POSITIVE" ∧ (1 : ℚ) / 2 < 1) ∧
          ¬("POSITIVE" = "NEGATIVE" ∧ (1 : ℚ) / 2 < 1)))) :=
  ⟨⟨Or.inl rfl, by decide⟩,
    displaySentiment_pct_and_bucket "POSITIVE" 1 (Or.inl rfl) (by decide)⟩

/-- C3: drawing `reviews[Math.floor(r * reviews.length)]` with a random
`0 ≤ r < 1` always displays an element of the loaded sequence, and
triggering the action while the sequence is empty (or not yet loaded)
shows the "No reviews available" error instead. -/
theorem picker_in_bounds_or_not_loaded (st : AppState) (r : ℚ) (out : PipeOut)
    (nt : Bool) (h0 : 0 ≤ r) (h1 : r < 1) :
    (st.reviews = [] →
      (analyzeRandomReview st r out nt).1.errorMsg =
        some "No reviews available. Please try again later.") ∧
    (st.reviews ≠ [] → st.pipelineReady = true →
      (analyzeRandomReview st r out nt).1.reviewText ∈ st.reviews) := by
  constructor
  · intro he
    simp [analyzeRandomReview, he]
  · intro hne hready
    have hlen : st.reviews.length ≠ 0 := by
      simpa [List.length_eq_zero] using hne
    have hpos : 0 < st.reviews.length := Nat.pos_of_ne_zero hlen
    have hidx : (⌊r * (st.reviews.length : ℚ)⌋).toNat < st.reviews.length :=
      floor_mul_length_lt _ r h0 h1 hpos
    have hget : (st.reviews[(⌊r * (st.reviews.length : ℚ)⌋).toNat]?).getD "" ∈ st.reviews := by
      rw [List.getElem?_eq_getElem hidx]
      simp
    cases h : analyzeSentiment true out <;>
      simp [analyzeRandomReview, hlen, hready, h] <;> exact hget

/-- C3 (witness): the picker theorem instantiated at the one-review demo
state, draw `0`, a successful pipeline output, no network failure. -/
theorem picker_in_bounds_or_not_loaded_witness :
    ((0 : ℚ) ≤ 0 ∧ (0 : ℚ) < 1) ∧
    ((demoState.reviews = [] →
      (analyzeRandomReview demoState 0 (PipeOut.arr [SentimentData.nonObj]) false).1.errorMsg =
        some "No reviews available. Please try again later.") ∧
    (demoState.reviews ≠ [] → demoState.pipelineReady = true →
      (analyzeRandomReview demoState 0 (PipeOut.arr [SentimentData.nonObj]) false).1.reviewText ∈
        demoState.reviews)) :=
  ⟨⟨by decide, by decide⟩,
    picker_in_bounds_or_not_loaded demoState 0 (PipeOut.arr [SentimentData.nonObj]) false
      (by decide) (by decide)⟩

/-- C7: once the analyze action actually starts a classification call
(reviews loaded and pipeline ready), the final state has the loading
indicator hidden and the analyze button re-enabled, whether the call
succeeded or failed. -/
theorem analyze_clears_progress_state (st : AppState) (r : ℚ) (out : PipeOut)
    (nt : Bool) (h1 : st.reviews ≠ []) (h2 : st.pipelineReady = true) :
    (analyzeRandomReview st r out nt).1.loadingVisible = false ∧
    (analyzeRandomReview st r out nt).1.btnDisabled = false := by
  have hlen : st.reviews.length ≠ 0 := by
    simpa [List.length_eq_zero] using h1
  cases h : analyzeSentiment true out <;>
    simp [analyzeRandomReview, hlen, h2, h]

/-- C7 (witness): the progress-clearing theorem instantiated at the demo
state with a thrown classification error. -/
theorem analyze_clears_progress_state_witness :
    (demoState.reviews ≠ [] ∧ demoState.pipelineReady = true) ∧
    ((analyzeRandomReview demoState 0 (PipeOut.threw "boom") false).1.loadingVisible = false ∧
      (analyzeRandomReview demoState 0 (PipeOut.threw "boom") false).1.btnDisabled = false) :=
  ⟨⟨by decide, by decide⟩,
    analyze_clears_progress_state demoState 0 (PipeOut.threw "boom") false
      (by decide) (by decide)⟩

/-- C9: the stored API token does not influence the classification path —
two runs of the analyze flow from states differing only in the token
display the same sentiment result, show the same error, and send the same
log entry. -/
theorem token_does_not_influence_classification (st : AppState) (t1 t2 : String)
    (r : ℚ) (out : PipeOut) (nt : Bool) :
    (analyzeRandomReview { st with apiToken := t1 } r out nt).1.displayed =
      (analyzeRandomReview { st with apiToken := t2 } r out nt).1.displayed ∧
    (analyzeRandomReview { st with apiToken := t1 } r out nt).1.errorMsg =
      (analyzeRandomReview { st with apiToken := t2 } r out nt).1.errorMsg ∧
    (analyzeRandomReview { st with apiToken := t1 } r out nt).2 =
      (analyzeRandomReview { st with apiToken := t2 } r out nt).2 := by
  by_cases hlen : st.reviews.length = 0
  · simp [analyzeRandomReview, hlen]
  · by_cases hready : st.pipelineReady = true
    · cases h : analyzeSentiment true out <;>
        simp [analyzeRandomReview, hlen, hready, h]
    · have hready' : st.pipelineReady = false := by
        cases hb : st.pipelineReady
        · rfl
        · exact absurd hb hready
      simp [analyzeRandomReview, hlen, hready']

/-- C5: when the classification succeeded, a failure of the usage-logging
call leaves the entire visible state — including the displayed sentiment
result — exactly as on a successful log call, and no user-visible error is
raised. -/
theorem logging_failure_leaves_display_unchanged (st : AppState) (r : ℚ)
    (xs : List SentimentData) (h1 : st.reviews ≠ []) (h2 : st.pipelineReady = true)
    (h3 : xs ≠ []) :
    (analyzeRandomReview st r (PipeOut.arr xs) true).1 =
      (analyzeRandomReview st r (PipeOut.arr xs) false).1 ∧
    (analyzeRandomReview st r (PipeOut.arr xs) true).1.errorMsg = none := by
  have hlen : st.reviews.length ≠ 0 := by
    simpa [List.length_eq_zero] using h1
  have hxs : xs.length ≠ 0 := by
    simpa [List.length_eq_zero] using h3
  simp [analyzeRandomReview, analyzeSentiment, hlen, h2, hxs]

/-- C5 (witness): the logging-failure theorem instantiated at the demo
state with a well-formed classification result. -/
theorem logging_failure_leaves_display_unchanged_witness :
    (demoState.reviews ≠ [] ∧ demoState.pipelineReady = true ∧
      [SentimentData.obj (some "POSITIVE") (some 1)] ≠ []) ∧
    ((analyzeRandomReview demoState 0
        (PipeOut.arr [SentimentData.obj (some "POSITIVE") (some 1)]) true).1 =
      (analyzeRandomReview demoState 0
        (PipeOut.arr [SentimentData.obj (some "POSITIVE") (some 1)]) false).1 ∧
    (analyzeRandomReview demoState 0
        (PipeOut.arr [SentimentData.obj (some "POSITIVE") (some 1)]) true).1.errorMsg = none) :=
  ⟨⟨by decide, by decide, by decide⟩,
    logging_failure_leaves_display_unchanged demoState 0
      [SentimentData.obj (some "POSITIVE") (some 1)] (by decide) (by decide) (by decide)⟩

/-- C4 (counterexample): a payload that is a non-empty array whose only
element is not a label/score object is malformed in the claim's sense, yet
the flow surfaces no error and updates the result display with the default
NEUTRAL 50.0% sentiment. -/
theorem nonobject_payload_renders_without_error :
    (analyzeRandomReview demoState 0 (PipeOut.arr [SentimentData.nonObj]) false).1.errorMsg =
      none ∧
    (analyzeRandomReview demoState 0 (PipeOut.arr [SentimentData.nonObj]) false).1.displayed =
      some ⟨"neutral", "NEUTRAL", 500⟩ := by
  constructor
  · simp [analyzeRandomReview, analyzeSentiment, demoState]
  · simp [analyzeRandomReview, analyzeSentiment, demoState, displaySentiment]
    norm_num [jsToFixed1, Rendered.mk.injEq, Int.floor_eq_iff]

/-- C4 (amended): a classification payload that is not an array, or is an
empty array, surfaces the classification-failed error and leaves the result
display cleared, with no sentiment result shown. -/
theorem invalid_payload_surfaces_error (st : AppState) (r : ℚ) (out : PipeOut)
    (nt : Bool) (h1 : st.reviews ≠ []) (h2 : st.pipelineReady = true)
    (h3 : out = PipeOut.nonArr ∨ out = PipeOut.arr []) :
    (analyzeRandomReview st r out nt).1.errorMsg =
      some "Invalid sentiment output from local model." ∧
    (analyzeRandomReview st r out nt).1.displayed = none := by
  have hlen : st.reviews.length ≠ 0 := by
    simpa [List.length_eq_zero] using h1
  rcases h3 with rfl | rfl <;>
    simp [analyzeRandomReview, analyzeSentiment, hlen, h2]

/-- C4 (witness): the invalid-payload theorem instantiated at the demo state
with a non-array pipeline output. -/
theorem invalid_payload_surfaces_error_witness :
    (demoState.reviews ≠ [] ∧ demoState.pipelineReady = true ∧
      (PipeOut.nonArr = PipeOut.nonArr ∨ PipeOut.nonArr = PipeOut.arr [])) ∧
    ((analyzeRandomReview demoState 0 PipeOut.nonArr false).1.errorMsg =
      some "Invalid sentiment output from local model." ∧
    (analyzeRandomReview demoState 0 PipeOut.nonArr false).1.displayed = none) :=
  ⟨⟨by decide, by decide, Or.inl rfl⟩,
    invalid_payload_surfaces_error demoState 0 PipeOut.nonArr false
      (by decide) (by decide) (Or.inl rfl)⟩

/-- C10 (counterexample): a classification result whose label is a string
but whose score is absent is logged without throwing — the entry carries the
percentage `NaN` (`none`) — while the result display renders the default
`50.0%`; the sent log entry's percentage differs from the rendered one. -/
theorem nan_log_pct_differs_from_display :
    (analyzeRandomReview demoState 0
        (PipeOut.arr [SentimentData.obj (some "POSITIVE") none]) false).2.map
      LogEntry.pctTenths = some none ∧
    (analyzeRandomReview demoState 0
        (PipeOut.arr [SentimentData.obj (some "POSITIVE") none]) false).1.displayed.map
      Rendered.pctTenths = some 500 ∧
    (analyzeRandomReview demoState 0
        (PipeOut.arr [SentimentData.obj (some "POSITIVE") none]) false).2.map
      LogEntry.pctTenths ≠
    (analyzeRandomReview demoState 0
        (PipeOut.arr [SentimentData.obj (some "POSITIVE") none]) false).1.displayed.map
      (fun d => some d.pctTenths) := by
  refine ⟨?_, ?_, ?_⟩ <;>
    simp [analyzeRandomReview, analyzeSentiment, demoState, displaySentiment,
      logToGoogleSheets] <;>
    norm_num [jsToFixed1, Int.floor_eq_iff]

/-- C10 (amended): whenever a usage log entry is actually sent and the
classification result's score field is a number, the entry's review text is
the review currently displayed and its uppercased label and one-decimal
percentage equal the label and percentage rendered in the result display. -/
theorem sent_log_matches_display (st : AppState) (r : ℚ) (lab : String) (q : ℚ)
    (rest : List SentimentData) (h1 : st.reviews ≠ []) (h2 : st.pipelineReady = true) :
    ∃ e d,
      (analyzeRandomReview st r
          (PipeOut.arr (SentimentData.obj (some lab) (some q) :: rest)) false).2 = some e ∧
      (analyzeRandomReview st r
          (PipeOut.arr (SentimentData.obj (some lab) (some q) :: rest)) false).1.displayed =
        some d ∧
      e.review = (analyzeRandomReview st r
          (PipeOut.arr (SentimentData.obj (some lab) (some q) :: rest)) false).1.reviewText ∧
      e.label = d.label ∧
      e.pctTenths = some d.pctTenths := by
  have hlen : st.reviews.length ≠ 0 := by
    simpa [List.length_eq_zero] using h1
  refine ⟨⟨(st.reviews[(⌊r * (st.reviews.length : ℚ)⌋).toNat]?).getD "", jsToUpper lab,
      some (jsToFixed1 (q * 100))⟩,
    displaySentiment [SentimentData.obj (some lab) (some q) :: rest], ?_, ?_, ?_, ?_, ?_⟩ <;>
    simp [analyzeRandomReview, analyzeSentiment, logToGoogleSheets, hlen, h2,
      displaySentiment]

/-- C10 (witness): the log-matches-display theorem instantiated at the demo
state with label `"POSITIVE"` and score `1`. -/
theorem sent_log_matches_display_witness :
    (demoState.reviews ≠ [] ∧ demoState.pipelineReady = true) ∧
    (∃ e d,
      (analyzeRandomReview demoState 0
          (PipeOut.arr (SentimentData.obj (some "POSITIVE") (some 1) :: [])) false).2 =
        some e ∧
      (analyzeRandomReview demoState 0
          (PipeOut.arr (SentimentData.obj (some "POSITIVE") (some 1) :: [])) false).1.displayed =
        some d ∧
      e.review = (analyzeRandomReview demoState 0
          (PipeOut.arr (SentimentData.obj (some "POSITIVE") (some 1) :: [])) false).1.reviewText ∧
      e.label = d.label ∧
      e.pctTenths = some d.pctTenths) :=
  ⟨⟨by decide, by decide⟩,
    sent_log_matches_display demoState 0 "POSITIVE" 1 [] (by decide) (by decide)⟩

/-- C8: the remote-API classifier variant (modelled from the spec; the
variant is absent from `src/app.js`) sends the review text with the bearer
credential to the hosted endpoint, and its response handling succeeds
exactly on a non-empty list whose first element carries a label and a
score, treating any other shape as an error. -/
theorem remote_variant_request_and_response_shape (token text : String)
    (resp : RemoteResp) :
    (remoteClassifyRequest token text).url = hostedInferenceEndpoint ∧
    (remoteClassifyRequest token text).authHeader = "Bearer " ++ token ∧
    (remoteClassifyRequest token text).body =
      "\x7b \"inputs\": \"" ++ text ++ "\" \x7d" ∧
    ((∃ res, extractRemoteResult resp = Except.ok res) ↔
      ∃ lab sc rest,
        resp = RemoteResp.jsonList (SentimentData.obj (some lab) (some sc) :: rest)) := by
  refine ⟨rfl, rfl, rfl, ?_⟩
  cases resp with
  | otherShape => simp [extractRemoteResult]
  | jsonList xs =>
    cases xs with
    | nil => simp [extractRemoteResult]
    | cons hd tl =>
      cases hd with
      | nonObj => simp [extractRemoteResult]
      | obj olab osc =>
        cases olab <;> cases osc <;> simp [extractRemoteResult]
